import Mathlib

/-!
Verification of the TexText GUI layer (`textext/gui.py`).

The file under verification is the dialog layer of the TexText Inkscape
extension.  It contains one abstract dialog class (`TexTextGuiBase`) and two
concrete dialogs (`TexTextGuiTK`, `TexTextGuiGTK`).  The development below is
a shallow embedding of that module: widget state is made explicit as record
fields, in-place mutation becomes explicit state passing, the fallible
Python `float` conversion becomes an `Option`-returning parser, and the
caller-supplied convert callback becomes a function returning `Except`.
-/

/-! ## Model of Python `float(str)` parsing

`TexTextGuiTK.cb_ok` and `TexTextGuiTK.validate_spinbox_input` both rely on
Python's built-in `float` applied to a string, which either returns a value
or raises `ValueError`.  The grammar modelled here is CPython's: optional
surrounding whitespace, an optional sign, and then either a decimal literal
(digit groups possibly separated by single underscores, optional fraction,
optional exponent) or one of the case-insensitive special words `inf`,
`infinity`, `nan`.  The numeric value is represented exactly as a rational;
`inf` and `nan` results get their own constructors. -/

/-- Result of a successful Python `float(str)` conversion: a finite value
(represented exactly as a rational), an infinity, or a NaN. -/
inductive PyFloat where
  | finite (q : ℚ)
  | inf (neg : Bool)
  | nan
deriving DecidableEq

/-- ASCII whitespace stripped by Python's `str.strip` as used by `float`. -/
def isPySpace (c : Char) : Bool :=
  c == ' ' || c == '\t' || c == '\n' || c == '\r' || c == '\x0b' || c == '\x0c'

/-- Strip leading and trailing whitespace from a character list. -/
def stripPy (l : List Char) : List Char :=
  ((l.dropWhile isPySpace).reverse.dropWhile isPySpace).reverse

/-- Consume one optional leading sign; `true` means negative. -/
def parseSign : List Char → Bool × List Char
  | '+' :: r => (false, r)
  | '-' :: r => (true, r)
  | l => (false, l)

/-- Characters that may occur inside a Python digit group. -/
def isDigitOrUnderscore (c : Char) : Bool := c.isDigit || c == '_'

/-- A digit group is valid when it starts and ends with a digit and has no
two adjacent underscores.  The `Bool` argument records whether the previous
character was a digit. -/
def validDigitsAux : List Char → Bool → Bool
  | [], prevDigit => prevDigit
  | c :: rest, prevDigit =>
    if c.isDigit then validDigitsAux rest true
    else if c = '_' then prevDigit && validDigitsAux rest false
    else false

/-- Validity of a (non-empty) Python digit group such as `12`, `1_2_3`. -/
def validDigitPart (ds : List Char) : Bool :=
  match ds with
  | [] => false
  | _ => validDigitsAux ds false

/-- Numeric value of a digit group, ignoring the underscore separators. -/
def digitsVal (ds : List Char) : Nat :=
  ds.foldl (fun a c => if c.isDigit then 10 * a + (c.toNat - 48) else a) 0

/-- Number of actual digits in a digit group (underscores not counted). -/
def digitCount (ds : List Char) : Nat := (ds.filter Char.isDigit).length

/-- Exact rational value of `ip . ds`, an integer part followed by a
fractional digit group. -/
def fracVal (ip : Nat) (ds : List Char) : ℚ :=
  ((ip * 10 ^ digitCount ds + digitsVal ds : ℕ) : ℚ) / ((10 : ℚ) ^ digitCount ds)

/-- Parse the mantissa of a Python float literal: `digits`, `digits.`,
`digits.digits` or `.digits`.  Returns the exact value and the unconsumed
input. -/
def parseNumber (l : List Char) : Option (ℚ × List Char) :=
  let ds1 := l.takeWhile isDigitOrUnderscore
  let r1 := l.dropWhile isDigitOrUnderscore
  if ds1 = [] then
    match r1 with
    | '.' :: r2 =>
      let ds2 := r2.takeWhile isDigitOrUnderscore
      let r3 := r2.dropWhile isDigitOrUnderscore
      if validDigitPart ds2 then some (fracVal 0 ds2, r3) else none
    | _ => none
  else if validDigitPart ds1 then
    match r1 with
    | '.' :: r2 =>
      let ds2 := r2.takeWhile isDigitOrUnderscore
      let r3 := r2.dropWhile isDigitOrUnderscore
      if ds2 = [] then some ((digitsVal ds1 : ℚ), r3)
      else if validDigitPart ds2 then some (fracVal (digitsVal ds1) ds2, r3)
      else none
    | _ => some ((digitsVal ds1 : ℚ), r1)
  else none

/-- Parse an optional exponent part `e[sign]digits`.  When no well-formed
exponent follows, nothing is consumed (the leftover input then makes the
whole conversion fail, exactly as in Python). -/
def parseExp (l : List Char) : Int × List Char :=
  match l with
  | c :: r =>
    if c = 'e' ∨ c = 'E' then
      let (eneg, r2) := parseSign r
      let ds := r2.takeWhile isDigitOrUnderscore
      let r3 := r2.dropWhile isDigitOrUnderscore
      if validDigitPart ds then
        ((if eneg then -(digitsVal ds : Int) else (digitsVal ds : Int)), r3)
      else (0, l)
    else (0, l)
  | [] => (0, [])

/-- Model of Python's `float(s)` on a string: `some` of the converted value,
or `none` when Python raises `ValueError`. -/
def pyFloatParse (s : String) : Option PyFloat :=
  let l := stripPy s.data
  let (neg, l1) := parseSign l
  let low := l1.map Char.toLower
  if low = "inf".data ∨ low = "infinity".data then some (PyFloat.inf neg)
  else if low = "nan".data then some PyFloat.nan
  else
    match parseNumber l1 with
    | none => none
    | some (q, r1) =>
      let (e, r2) := parseExp r1
      if r2 = [] then
        let scaled := if e = 0 then q else q * (10 : ℚ) ^ e
        some (PyFloat.finite (if neg then -scaled else scaled))
      else none

/-! ## Model of the configuration store

`Modelled from the spec:` the `Settings` class lives in `settings.py`, which
is not part of the file under verification; the spec describes it as "a
nested key-value store, persisted outside this component".  It is modelled
as an association list from string keys to values, where a value is either
a scalar (boolean, rational or string) or a sub-section mapping string keys
to scalars (the only nesting depth the dialog code uses, via the `"gui"`
sub-section).  `has_key`, indexed read/write and `get`-with-default mirror
the dict-style operations the dialog invokes on it. -/

/-- A scalar configuration value. -/
inductive CScalar where
  | sB (b : Bool)
  | sQ (q : ℚ)
  | sS (s : String)
deriving DecidableEq

/-- A top-level configuration value: a scalar or a sub-section. -/
inductive CVal where
  | scalar (v : CScalar)
  | sect (entries : List (String × CScalar))
deriving DecidableEq

/-- Look up the first binding of a key in an association list. -/
def KV.lookup {α : Type} : List (String × α) → String → Option α
  | [], _ => none
  | p :: rest, k => if p.1 = k then some p.2 else KV.lookup rest k

/-- Set a key in an association list, replacing the first existing binding
or appending a new one. -/
def KV.set {α : Type} : List (String × α) → String → α → List (String × α)
  | [], k, v => [(k, v)]
  | p :: rest, k, v => if p.1 = k then (k, v) :: rest else p :: KV.set rest k v

/-- Modelled from the spec: the nested key-value configuration store. -/
structure Settings where
  entries : List (String × CVal)
deriving DecidableEq

/-- Model of `Settings.has_key` as used in `TexTextGuiBase.__init__`. -/
def Settings.has_key (cfg : Settings) (k : String) : Bool :=
  (KV.lookup cfg.entries k).isSome

/-- Model of `config[k]` read access at top level. -/
def Settings.lookupKey (cfg : Settings) (k : String) : Option CVal :=
  KV.lookup cfg.entries k

/-- Model of `config.get(k, default)`. -/
def Settings.getD (cfg : Settings) (k : String) (dflt : CVal) : CVal :=
  (KV.lookup cfg.entries k).getD dflt

/-- Model of `config[k] = v` at top level. -/
def Settings.setKey (cfg : Settings) (k : String) (v : CVal) : Settings :=
  ⟨KV.set cfg.entries k v⟩

/-- Model of `config["gui"].get(k, default)` / `config["gui"][k]` reads. -/
def Settings.getGui (cfg : Settings) (k : String) : Option CScalar :=
  match KV.lookup cfg.entries "gui" with
  | some (CVal.sect m) => KV.lookup m k
  | _ => none

/-- Helper for `Settings.setGui`: update a key inside a section value;
a scalar value is left unchanged (Python would raise instead). -/
def setSect (c : CVal) (k : String) (v : CScalar) : CVal :=
  match c with
  | CVal.sect m => CVal.sect (KV.set m k v)
  | other => other

/-- Helper for `Settings.setGui` on the underlying entry list: the first
`"gui"` binding is updated in place; when no `"gui"` binding exists the
store is unchanged (Python raises `KeyError` and performs no write). -/
def setGuiEntries : List (String × CVal) → String → CScalar → List (String × CVal)
  | [], _, _ => []
  | p :: rest, k, v =>
    if p.1 = "gui" then ("gui", setSect p.2 k v) :: rest
    else p :: setGuiEntries rest k v

/-- Model of `config["gui"][k] = v`. -/
def Settings.setGui (cfg : Settings) (k : String) (v : CScalar) : Settings :=
  ⟨setGuiEntries cfg.entries k v⟩

/-! ## The node metadata record and the abstract dialog base class -/

/-- The editable node metadata record (`TexTextEleMetaData` from `base.py`,
reconstructed from its uses in `gui.py`): source text, scale factor,
alignment label, preamble path, conversion command and stroke-to-path
flag, plus the version label written on save. -/
structure TexTextEleMetaData where
  text : String
  scale_factor : ℚ
  alignment : String
  preamble : String
  tex_command : String
  stroke_to_path : Bool
  textext_version : String
deriving DecidableEq

namespace TexTextGuiBase

/-- `TexTextGuiBase.TEX_COMMANDS`. -/
def TEX_COMMANDS : List String := ["pdflatex", "lualatex", "xelatex"]

/-- `TexTextGuiBase.ALIGNMENT_LABELS`. -/
def ALIGNMENT_LABELS : List String :=
  ["top left", "top center", "top right",
   "middle left", "middle center", "middle right",
   "bottom left", "bottom center", "bottom right"]

/-- `TexTextGuiBase.DEFAULT_WORDWRAP`. -/
def DEFAULT_WORDWRAP : Bool := false

end TexTextGuiBase

/-- The attributes `TexTextGuiBase.__init__` initializes on `self`.  The
`convert_callback` / `preview_callback` slots (set to `None` and bound later
by `show`) are not part of this record: in the embedding each dialog
operation receives the callback as an explicit argument. -/
structure BaseState where
  textext_version : String
  config : Settings
  global_scale_factor : CVal
  node_scale_factor : ℚ
  current_alignment : String
  preamble_file : String
  current_convert_strokes_to_path : Bool
  text : String
  current_texcmd : String
deriving DecidableEq

namespace TexTextGuiBase

/-- Shallow embedding of `TexTextGuiBase.__init__` (gui.py lines 111-140):
ensures a `"gui"` sub-section exists in the configuration store, then
initializes the displayed defaults from the node metadata record, falling
back to the first enumerated TeX command when the stored one is
unrecognized.  Note that no such fallback is applied to the alignment
value. -/
def init (version_str : String) (node_meta_data : TexTextEleMetaData)
    (config : Settings) : BaseState :=
  let config1 :=
    if config.has_key "gui" then config
    else Settings.setKey config "gui" (CVal.sect [])
  { textext_version := version_str
  , config := config1
  , global_scale_factor := Settings.getD config1 "scale" (CVal.scalar (CScalar.sQ 1))
  , node_scale_factor := node_meta_data.scale_factor
  , current_alignment := node_meta_data.alignment
  , preamble_file := node_meta_data.preamble
  , current_convert_strokes_to_path := node_meta_data.stroke_to_path
  , text := if node_meta_data.text.length > 0 then node_meta_data.text else ""
  , current_texcmd :=
      if node_meta_data.tex_command ∈ TEX_COMMANDS then node_meta_data.tex_command
      else TEX_COMMANDS.headD "" }

end TexTextGuiBase

/-! ## Common dialog plumbing -/

/-- A Python exception as the dialog code observes it: its string
conversion, and — for `TexTextCommandFailed` — captured process output. -/
structure PyExn where
  msg : String
  isCmdFailed : Bool
  stdout : Option String
  stderr : Option String
deriving DecidableEq

/-- Model of Python's `str(exception)`. -/
def pyStr (e : PyExn) : String := e.msg

/-- Widget sensitivity state (`tk.NORMAL` / `tk.DISABLED`,
`set_sensitive`). -/
inductive TkWidgetState where
  | normal
  | disabled
deriving DecidableEq

/-- Text-view wrap mode (`tk.WORD` / `tk.NONE`, `Gtk.WrapMode.WORD` /
`Gtk.WrapMode.NONE`). -/
inductive WrapMode where
  | word
  | nowrap
deriving DecidableEq

/-! ## The TK dialog (`TexTextGuiTK`) -/

/-- The positional values `TexTextGuiTK.cb_ok` hands to the convert
callback (gui.py lines 382-384). -/
structure ConvArgs where
  text : String
  preamble : String
  scale : PyFloat
  alignment : String
  texcmd : String
  strokes : Bool
deriving DecidableEq

/-- State of an open TK dialog: the stored attributes of the object plus
the current contents of its widgets (`_scale`, `_preamble`, `_text_box`,
`_convert_strokes_to_path`, `_alignment_tk_str`, `_tex_command_tk_str`,
`_word_wrap_tkval` and the text box wrap mode). -/
structure TkState where
  text : String
  preamble_file : String
  global_scale_factor : PyFloat
  current_convert_strokes_to_path : Bool
  config : Settings
  scale_widget : String
  preamble_widget : String
  text_box_content : String
  strokes_widget : Bool
  alignment_widget : String
  texcmd_widget : String
  word_wrap_tkval : Bool
  text_box_wrap : WrapMode
deriving DecidableEq

namespace TexTextGuiTK

/-- Shallow embedding of `TexTextGuiTK.validate_spinbox_input` (gui.py
lines 194-218): accept when the inserted string `S` is empty or the
resulting content `P` is empty, otherwise exactly when `float(P)`
succeeds. -/
def validate_spinbox_input (d i P s S v V W : String) : Bool :=
  if S = "" ∨ P = "" then true
  else (pyFloatParse P).isSome

/-- Shallow embedding of `TexTextGuiTK.show_error_dialog` (gui.py lines
415-456) reduced to its displayed content: a list of (header, body) text
sections.  The first section shows the message text as header and
`str(exception)` as body; for a `TexTextCommandFailed` with non-empty
captured output, further sections show stdout and stderr.  The `title`
argument is accepted but, as in the source, never displayed. -/
def show_error_dialog (title message_text : String) (e : PyExn) :
    List (String × String) :=
  (message_text, pyStr e) ::
    (if e.isCmdFailed then
      (match e.stdout with
       | some t => if t = "" then [] else [("Stdout:", t)]
       | none => []) ++
      (match e.stderr with
       | some t => if t = "" then [] else [("Stderr:", t)]
       | none => [])
    else [])

/-- The assignments `cb_ok` performs once the scale field has parsed
(gui.py lines 371, 377-379): the stored attributes are overwritten with
the current widget values. -/
def commit_fields (st : TkState) (v : PyFloat) : TkState :=
  { st with
      global_scale_factor := v
    , text := st.text_box_content
    , preamble_file := st.preamble_widget
    , current_convert_strokes_to_path := st.strokes_widget }

/-- The positional argument tuple `cb_ok` passes to the convert callback
(gui.py lines 382-384); the stored attributes it reads were just assigned
from the widgets, so the tuple is the widget values together with the
parsed scale. -/
def collect_args (st : TkState) (v : PyFloat) : ConvArgs :=
  { text := st.text_box_content
  , preamble := st.preamble_widget
  , scale := v
  , alignment := st.alignment_widget
  , texcmd := st.texcmd_widget
  , strokes := st.strokes_widget }

/-- Observable outcome of one invocation of `TexTextGuiTK.cb_ok`. -/
structure TkCbOkResult where
  state : TkState
  callbackCalled : Option ConvArgs
  scaleError : Option (String × String)
  errorDialog : Option (List (String × String))
  loopQuit : Bool
deriving DecidableEq

/-- Shallow embedding of `TexTextGuiTK.cb_ok` (gui.py lines 369-391).
`float(self._scale.get())` failing shows the scale-error message box and
returns; otherwise the stored fields are overwritten from the widgets, the
convert callback is invoked, a raised exception is routed to
`show_error_dialog` (leaving the main loop running), and on success
`self._frame.quit()` ends the main loop. -/
def cb_ok (cb : ConvArgs → Except PyExn Unit) (st : TkState) : TkCbOkResult :=
  match pyFloatParse st.scale_widget with
  | none =>
    { state := st
    , callbackCalled := none
    , scaleError := some ("Scale factor error",
        "Please enter a valid floating point number for the scale factor!")
    , errorDialog := none
    , loopQuit := false }
  | some v =>
    let st1 := commit_fields st v
    let args := collect_args st v
    match cb args with
    | Except.error e =>
      { state := st1
      , callbackCalled := some args
      , scaleError := none
      , errorDialog := some (show_error_dialog "TexText Error"
          "Error occurred while converting text from Latex to SVG:" e)
      , loopQuit := false }
    | Except.ok _ =>
      { state := st1
      , callbackCalled := some args
      , scaleError := none
      , errorDialog := none
      , loopQuit := true }

/-- Shallow embedding of `TexTextGuiTK.cb_word_wrap` (gui.py lines
394-396): set the text box wrap mode from the checkbox variable and
persist the same boolean under `config["gui"]["word_wrap"]`. -/
def cb_word_wrap (st : TkState) : TkState :=
  { st with
      text_box_wrap := if st.word_wrap_tkval then WrapMode.word else WrapMode.nowrap
    , config := Settings.setGui st.config "word_wrap" (CScalar.sB st.word_wrap_tkval) }

/-- Clicking the word-wrap `Checkbutton`: tk first flips the attached
`BooleanVar`, then runs the `cb_word_wrap` command. -/
def toggle_word_wrap (st : TkState) : TkState :=
  cb_word_wrap { st with word_wrap_tkval := !st.word_wrap_tkval }

/-- Final state of `_reset_button` after `TexTextGuiTK.show` built it
(gui.py lines 282-286): created normal, then disabled when the stored text
is empty. -/
def show_reset_button_state (st : BaseState) : TkWidgetState :=
  if st.text = "" then TkWidgetState.disabled else TkWidgetState.normal

/-- State given to every alignment radio button in `TexTextGuiTK.show`
(gui.py lines 304-309): `tk.DISABLED` when the stored text is empty,
`tk.NORMAL` otherwise. -/
def show_alignment_state (st : BaseState) : TkWidgetState :=
  if st.text = "" then TkWidgetState.disabled else TkWidgetState.normal

/-- Initial value of the alignment radio variable set by `show` (gui.py
line 300): the stored alignment string, whatever it is. -/
def show_alignment_var (st : BaseState) : String := st.current_alignment

end TexTextGuiTK

/-- How a cancel invocation terminates. -/
inductive CancelOutcome where
  | systemExit (code : Nat)
  | mainQuit
  | attributeError (missing : String)
deriving DecidableEq

/-- Observable outcome of a cancel invocation: whether the convert
callback was invoked, and how the handler terminated. -/
structure CancelResult where
  callbackCalled : Option ConvArgs
  outcome : CancelOutcome
deriving DecidableEq

namespace TexTextGuiTK

/-- Shallow embedding of `TexTextGuiTK.cb_cancel` (gui.py lines 189-191):
`raise SystemExit(1)`; it touches no field and invokes no callback. -/
def cb_cancel (st : TkState) : CancelResult :=
  { callbackCalled := none, outcome := CancelOutcome.systemExit 1 }

end TexTextGuiTK

/-! ## The GTK dialog (`TexTextGuiGTK`)

The GTK class in the source is in the middle of a migration to a
glade-built window: `create_window` is active code, while the programmatic
widget construction is commented out.  Several widget attributes the
callback methods read (`_source_buffer`, `_preamble_widget`, `_scale_adj`,
`_conv_stroke2path`, `_texcmd_cbox`, `_alignment_combobox`) are assigned
nowhere in the active code; the embedding models them as state fields, the
environment the methods assume. -/

/-- The preamble widget is either a `Gtk.FileChooser` (holding an optional
filename) or a plain `Gtk.Entry` (holding text), as distinguished by the
`isinstance` test in `TexTextGuiGTK.cb_ok`. -/
inductive PreambleWidget where
  | chooser (filename : Option String)
  | entry (content : String)
deriving DecidableEq

/-- The preamble string `cb_ok` extracts (gui.py lines 998-1003): the
chooser's filename with `None` (and hence any falsy value) replaced by
`""`, or the entry text. -/
def PreambleWidget.get : PreambleWidget → String
  | PreambleWidget.chooser f => f.getD ""
  | PreambleWidget.entry s => s

/-- State of an open GTK dialog: the stored attributes of the object plus
the widget attributes its callbacks read.  The combo box actives are
indices into the three-element and nine-element enumerations, as produced
by `set_active` / `get_active` on the populated combo boxes. -/
structure GtkState where
  textext_version : String
  text : String
  preamble_file : String
  global_scale_factor : ℚ
  current_convert_strokes_to_path : Bool
  config : Settings
  source_buffer : String
  preamble_widget : PreambleWidget
  scale_adj_value : ℚ
  stroke2path_active : Bool
  texcmd_active : Fin 3
  alignment_active : Fin 9
deriving DecidableEq

/-- Displayed content of the GTK error dialog (gui.py lines 1184-1249):
title, bold message markup, the always-visible section holding
`str(exception)`, and collapsible stdout/stderr sections for a
`TexTextCommandFailed` with captured output. -/
structure GtkErrorDialog where
  title : String
  message_markup : String
  main_text : String
  extra_sections : List (String × String)
deriving DecidableEq

namespace TexTextGuiGTK

/-- Shallow embedding of `TexTextGuiGTK.show_error_dialog` (gui.py lines
1184-1249) reduced to its displayed content. -/
def show_error_dialog (title message_text : String) (e : PyExn) :
    GtkErrorDialog :=
  { title := title
  , message_markup := "<b>" ++ message_text ++ "</b>"
  , main_text := pyStr e
  , extra_sections :=
      if e.isCmdFailed then
        (match e.stdout with
         | some t => if t = "" then []
             else [("Stdout: <small><i>(click to expand)</i></small>", t)]
         | none => []) ++
        (match e.stderr with
         | some t => if t = "" then []
             else [("Stderr: <small><i>(click to expand)</i></small>", t)]
         | none => [])
      else [] }

/-- The assignments `cb_ok` performs before building the metadata record
(gui.py lines 994-1007): text, preamble path, scale and stroke flag are
overwritten from the widgets. -/
def collect_state (st : GtkState) : GtkState :=
  { st with
      text := st.source_buffer
    , preamble_file := PreambleWidget.get st.preamble_widget
    , global_scale_factor := st.scale_adj_value
    , current_convert_strokes_to_path := st.stroke2path_active }

/-- The metadata record `cb_ok` fills and passes to the convert callback
(gui.py lines 1010-1018), resolving the conversion command (lower-cased)
and the alignment by the selected combo box index. -/
def collect_meta (st : GtkState) : TexTextEleMetaData :=
  { textext_version := st.textext_version
  , text := st.text
  , preamble := st.preamble_file
  , scale_factor := st.global_scale_factor
  , tex_command :=
      (TexTextGuiBase.TEX_COMMANDS.getD st.texcmd_active.val "").toLower
  , alignment := TexTextGuiBase.ALIGNMENT_LABELS.getD st.alignment_active.val ""
  , stroke_to_path := st.current_convert_strokes_to_path }

/-- Observable outcome of one invocation of `TexTextGuiGTK.cb_ok`. -/
structure GtkCbOkResult where
  state : GtkState
  callbackCalled : Option TexTextEleMetaData
  errorDialog : Option GtkErrorDialog
  mainQuit : Bool
  returnValue : Bool
deriving DecidableEq

/-- Shallow embedding of `TexTextGuiGTK.cb_ok` (gui.py lines 993-1026):
collect the widget values into the stored fields and a fresh metadata
record, invoke the convert callback with it, route a raised exception to
`show_error_dialog` and return without ending the main loop; on success
call `Gtk.main_quit()`.  Both paths return `False`. -/
def cb_ok (cb : TexTextEleMetaData → Except PyExn Unit) (st : GtkState) :
    GtkCbOkResult :=
  let st1 := collect_state st
  let md := collect_meta st1
  match cb md with
  | Except.error e =>
    { state := st1
    , callbackCalled := some md
    , errorDialog := some (show_error_dialog "TexText Error"
        "Error occurred while converting text from Latex to SVG:" e)
    , mainQuit := false
    , returnValue := false }
  | Except.ok _ =>
    { state := st1
    , callbackCalled := some md
    , errorDialog := none
    , mainQuit := true
    , returnValue := false }

/-- Shallow embedding of `TexTextGuiGTK.word_wrap_toggled_cb` (gui.py
lines 931-933): set the source view wrap mode from the toggle action state
and persist the same boolean under `config["gui"]["word_wrap"]`.  Returns
the new wrap mode and the updated store. -/
def word_wrap_toggled_cb (active : Bool) (cfg : Settings) :
    WrapMode × Settings :=
  ((if active then WrapMode.word else WrapMode.nowrap),
   Settings.setGui cfg "word_wrap" (CScalar.sB active))

/-- Sensitivity `create_window` gives the "Reset scale" button (gui.py
line 502): `self.text != ""`. -/
def btn_scalereset_sensitive (st : BaseState) : Bool := st.text != ""

/-- Sensitivity `create_window` gives the alignment combo box (gui.py
line 515): `self.text != ""`. -/
def cmb_align_sensitive (st : BaseState) : Bool := st.text != ""

/-- Index `create_window` activates in the alignment combo box (gui.py
line 514): `ALIGNMENT_LABELS.index(self.current_alignment)`.  `none`
models the `ValueError` Python raises when the stored alignment is not in
the enumeration — there is no fallback. -/
def cmb_align_index (st : BaseState) : Option Nat :=
  TexTextGuiBase.ALIGNMENT_LABELS.indexOf? st.current_alignment

/-- Attribute names defined on a `TexTextGuiGTK` instance by the active
code: the methods of `TexTextGuiGTK`, the methods of `TexTextGuiBase`, the
class-level constants, and the instance attributes assigned in
`TexTextGuiBase.__init__`, `TexTextGuiGTK.__init__` and
`TexTextGuiGTK.show`. -/
def defined_attributes : List String :=
  [ "__init__", "create_window", "show", "define_actions_textbuffer"
  , "define_actions_view", "define_actions_gtksourceview_additions"
  , "define_actions_settings", "set_monospace_font", "open_file_cb"
  , "update_position_label", "load_file", "open_file"
  , "numbers_toggled_cb", "auto_indent_toggled_cb"
  , "insert_spaces_toggled_cb", "word_wrap_toggled_cb"
  , "on_preview_background_chagned", "tabs_toggled_cb"
  , "new_node_content_cb", "font_size_cb", "close_shortcut_cb"
  , "confirm_close_toggled_cb", "cb_key_press", "cb_ok", "cb_cancel"
  , "move_cursor_cb", "on_window_delete", "update_preview"
  , "set_preview_image_from_file", "switch_preview_representation"
  , "update_preview_representation", "clear_preamble", "set_preamble"
  , "on_btn_scalereset_clicked", "on_btn_scaleprevious_clicked"
  , "show_error_dialog"
  , "DEFAULT_WORDWRAP", "DEFAULT_SHOWLINENUMBERS", "DEFAULT_AUTOINDENT"
  , "DEFAULT_INSERTSPACES", "DEFAULT_TABWIDTH", "DEFAULT_FONTSIZE"
  , "DEFAULT_NEW_NODE_CONTENT", "DEFAULT_CLOSE_SHORTCUT"
  , "DEFAULT_CONFIRM_CLOSE", "DEFAULT_PREVIEW_WHITE_BACKGROUND"
  , "TEX_COMMANDS", "ALIGNMENT_LABELS", "FONT_SIZE", "NEW_NODE_CONTENT"
  , "CLOSE_SHORTCUT", "CLOSE_SHORTCUT_TEXT"
  , "textext_version", "_config", "global_scale_factor"
  , "node_scale_factor", "current_alignment", "preamble_file"
  , "current_convert_strokes_to_path", "text", "current_texcmd"
  , "convert_callback", "preview_callback", "signal_handlers"
  , "_convert_callback", "_preview_callback" ]

/-- The attribute `TexTextGuiGTK.cb_cancel` invokes on `self` (gui.py line
1030): `self.window_deleted_cb(widget, None, None)`. -/
def cb_cancel_target : String := "window_deleted_cb"

/-- Shallow embedding of `TexTextGuiGTK.on_window_delete` (gui.py lines
1037-1058): the live code (the close-confirmation block is commented out)
calls `Gtk.main_quit()` and returns `False`; no callback is invoked. -/
def on_window_delete : CancelResult :=
  { callbackCalled := none, outcome := CancelOutcome.mainQuit }

/-- Shallow embedding of `TexTextGuiGTK.cb_cancel` (gui.py lines
1028-1030): it invokes `self.window_deleted_cb`, resolved by Python
attribute lookup.  When the attribute exists the delete handler runs;
when it does not — which is the case in this source, where the handler is
named `on_window_delete` — an `AttributeError` is raised and the main loop
keeps running. -/
def cb_cancel (st : GtkState) : CancelResult :=
  if cb_cancel_target ∈ defined_attributes then on_window_delete
  else { callbackCalled := none
       , outcome := CancelOutcome.attributeError cb_cancel_target }

/-- Return value of `TexTextGuiGTK.show` once the main loop has ended
(gui.py line 702): the configuration store. -/
def show_return (config : Settings) : Settings := config

end TexTextGuiGTK

/-! ## Helper lemmas -/

/-- Looking up a key just set finds the new value. -/
lemma KV.lookup_set_self {α : Type} (m : List (String × α)) (k : String) (v : α) :
    KV.lookup (KV.set m k v) k = some v := by
  induction m with
  | nil => simp [KV.set, KV.lookup]
  | cons p rest ih =>
    by_cases h : p.1 = k
    · simp [KV.set, h, KV.lookup]
    · simp [KV.set, h, KV.lookup, ih]

/-- Setting one key leaves the lookup of any other key unchanged. -/
lemma KV.lookup_set_ne {α : Type} (m : List (String × α)) (k k0 : String) (v : α)
    (h : k0 ≠ k) :
    KV.lookup (KV.set m k v) k0 = KV.lookup m k0 := by
  induction m with
  | nil => simp [KV.set, KV.lookup, Ne.symm h]
  | cons p rest ih =>
    by_cases hp : p.1 = k
    · have hp0 : p.1 ≠ k0 := by rw [hp]; exact Ne.symm h
      simp [KV.set, hp, KV.lookup, Ne.symm h, hp0]
    · simp [KV.set, hp, KV.lookup, ih]

/-- `setGuiEntries` rewrites exactly the first `"gui"` binding. -/
lemma lookup_setGuiEntries (l : List (String × CVal)) (k : String) (v : CScalar) :
    KV.lookup (setGuiEntries l k v) "gui"
      = (KV.lookup l "gui").map (fun c => setSect c k v) := by
  induction l with
  | nil => simp [setGuiEntries, KV.lookup]
  | cons p rest ih =>
    by_cases h : p.1 = "gui"
    · simp [setGuiEntries, h, KV.lookup]
    · simp [setGuiEntries, h, KV.lookup, ih]

/-- Reading back a gui preference just written through `setGui`. -/
lemma getGui_setGui (cfg : Settings) (m : List (String × CScalar))
    (k : String) (v : CScalar)
    (h : Settings.lookupKey cfg "gui" = some (CVal.sect m)) :
    Settings.getGui (Settings.setGui cfg k v) k = some v := by
  unfold Settings.lookupKey at h
  unfold Settings.getGui Settings.setGui
  rw [lookup_setGuiEntries, h]
  simp [setSect, KV.lookup_set_self]

/-- The `text` attribute stored by the constructor equals the metadata
text: the source writes it through `if len(...) > 0` but both branches
yield the same string. -/
lemma init_text (v : String) (md : TexTextEleMetaData) (cfg : Settings) :
    (TexTextGuiBase.init v md cfg).text = md.text := by
  show (if md.text.length > 0 then md.text else "") = md.text
  by_cases h : md.text.length > 0
  · simp [h]
  · have h0 : md.text.length = 0 := Nat.eq_zero_of_not_pos h
    have he : md.text = "" := by
      cases hm : md.text with
      | mk data =>
        rw [hm] at h0
        have hd : data = [] := List.length_eq_zero.mp h0
        subst hd
        rfl
    simp [h, he]

/-! ## Claim theorems -/

/-- C1 counterexample: the claim that an out-of-enumeration alignment
value given to the constructor is replaced by the documented default is
false.  With stored alignment `"bogus"` the constructor keeps `"bogus"`,
which is outside the enumeration and differs from the first enumerated
label; consequently the GTK `create_window` cannot resolve an index for
the alignment combo box (Python raises `ValueError`; there is no
fallback). -/
theorem alignment_fallback_counterexample :
    (TexTextGuiBase.init "1.8.2"
      { text := "x", scale_factor := 1, alignment := "bogus", preamble := ""
      , tex_command := "pdflatex", stroke_to_path := false
      , textext_version := "1.8.2" } ⟨[]⟩).current_alignment = "bogus"
  ∧ "bogus" ∉ TexTextGuiBase.ALIGNMENT_LABELS
  ∧ "bogus" ≠ "top left"
  ∧ TexTextGuiGTK.cmb_align_index
      (TexTextGuiBase.init "1.8.2"
        { text := "x", scale_factor := 1, alignment := "bogus", preamble := ""
        , tex_command := "pdflatex", stroke_to_path := false
        , textext_version := "1.8.2" } ⟨[]⟩) = none := by
  refine ⟨rfl, by decide, by decide, by decide⟩

/-- C1 (amended): the constructor applies the fall-back-to-first-value
rule only to the conversion command — an unrecognized stored TeX command
is replaced by `"pdflatex"`, so the command selector always holds an
enumerated value — while the alignment value is stored unchanged, with no
enumeration check. -/
theorem constructor_enum_fallbacks (v : String) (md : TexTextEleMetaData)
    (cfg : Settings) :
    (TexTextGuiBase.init v md cfg).current_texcmd
      = (if md.tex_command ∈ TexTextGuiBase.TEX_COMMANDS then md.tex_command
         else "pdflatex")
  ∧ (TexTextGuiBase.init v md cfg).current_texcmd ∈ TexTextGuiBase.TEX_COMMANDS
  ∧ (TexTextGuiBase.init v md cfg).current_alignment = md.alignment := by
  refine ⟨rfl, ?_, rfl⟩
  show (if md.tex_command ∈ TexTextGuiBase.TEX_COMMANDS then md.tex_command
        else TexTextGuiBase.TEX_COMMANDS.headD "") ∈ TexTextGuiBase.TEX_COMMANDS
  by_cases h : md.tex_command ∈ TexTextGuiBase.TEX_COMMANDS
  · simp [h]
  · simp only [h, if_false]
    decide

/-- C7: after construction, the TK reset-scale button and alignment radio
buttons are disabled exactly when the node's text is empty, and the GTK
reset-scale button and alignment combo box are sensitive exactly when the
node's text is non-empty. -/
theorem empty_text_disables_alignment_and_reset (v : String)
    (md : TexTextEleMetaData) (cfg : Settings) :
    (TexTextGuiTK.show_reset_button_state (TexTextGuiBase.init v md cfg)
        = TkWidgetState.disabled ↔ md.text = "")
  ∧ (TexTextGuiTK.show_alignment_state (TexTextGuiBase.init v md cfg)
        = TkWidgetState.disabled ↔ md.text = "")
  ∧ (TexTextGuiGTK.btn_scalereset_sensitive (TexTextGuiBase.init v md cfg)
        = true ↔ md.text ≠ "")
  ∧ (TexTextGuiGTK.cmb_align_sensitive (TexTextGuiBase.init v md cfg)
        = true ↔ md.text ≠ "") := by
  have ht := init_text v md cfg
  by_cases h : md.text = "" <;>
    simp [TexTextGuiTK.show_reset_button_state, TexTextGuiTK.show_alignment_state,
          TexTextGuiGTK.btn_scalereset_sensitive, TexTextGuiGTK.cmb_align_sensitive,
          ht, h]

/-- C8: `validate_spinbox_input` accepts a keystroke exactly when the
inserted string is empty, the resulting field content is empty, or the
resulting field content parses as a Python float. -/
theorem validate_spinbox_input_accepts_iff (d i P s S v V W : String) :
    TexTextGuiTK.validate_spinbox_input d i P s S v V W = true
      ↔ (S = "" ∨ P = "" ∨ (pyFloatParse P).isSome = true) := by
  unfold TexTextGuiTK.validate_spinbox_input
  by_cases hS : S = "" <;> by_cases hP : P = "" <;> simp [hS, hP]

/-- C10: after construction the configuration store has a `"gui"` key; a
missing `"gui"` binding is created as an empty sub-section, and every
other binding — including an existing `"gui"` one — is exactly as in the
store that was passed in. -/
theorem constructor_ensures_gui_section (v : String) (md : TexTextEleMetaData)
    (cfg : Settings) :
    (TexTextGuiBase.init v md cfg).config.has_key "gui" = true
  ∧ ∀ k : String,
      Settings.lookupKey (TexTextGuiBase.init v md cfg).config k
        = if k = "gui" ∧ Settings.lookupKey cfg "gui" = none
          then some (CVal.sect [])
          else Settings.lookupKey cfg k := by
  by_cases h : cfg.has_key "gui" = true
  · have hc : (TexTextGuiBase.init v md cfg).config = cfg := by
      simp [TexTextGuiBase.init, h]
    have hlk : Settings.lookupKey cfg "gui" ≠ none := by
      unfold Settings.has_key at h
      unfold Settings.lookupKey
      intro hnone
      rw [hnone] at h
      simp at h
    refine ⟨by rw [hc]; exact h, ?_⟩
    intro k
    rw [hc, if_neg]
    intro hand
    exact hlk hand.2
  · have hc : (TexTextGuiBase.init v md cfg).config
        = Settings.setKey cfg "gui" (CVal.sect []) := by
      simp [TexTextGuiBase.init, h]
    have hnone : Settings.lookupKey cfg "gui" = none := by
      unfold Settings.has_key at h
      unfold Settings.lookupKey
      cases hl : KV.lookup cfg.entries "gui"
      · rfl
      · rw [hl] at h; simp at h
    constructor
    · rw [hc]
      unfold Settings.has_key Settings.setKey
      rw [KV.lookup_set_self]
      rfl
    · intro k
      rw [hc]
      by_cases hk : k = "gui"
      · subst hk
        unfold Settings.lookupKey Settings.setKey
        rw [KV.lookup_set_self, if_pos ⟨rfl, hnone⟩]
      · unfold Settings.lookupKey Settings.setKey
        rw [KV.lookup_set_ne cfg.entries "gui" k (CVal.sect []) hk,
            if_neg (fun hand => hk hand.1)]

/-- C2: when the scale field does not parse as a float, `cb_ok` shows the
numeric-format error box, invokes no callback, leaves the main loop
running and changes no stored field. -/
theorem tk_cb_ok_invalid_scale (cb : ConvArgs → Except PyExn Unit)
    (st : TkState) (h : pyFloatParse st.scale_widget = none) :
    (TexTextGuiTK.cb_ok cb st).callbackCalled = none
  ∧ (TexTextGuiTK.cb_ok cb st).scaleError
      = some ("Scale factor error",
          "Please enter a valid floating point number for the scale factor!")
  ∧ (TexTextGuiTK.cb_ok cb st).loopQuit = false
  ∧ (TexTextGuiTK.cb_ok cb st).state = st := by
  simp [TexTextGuiTK.cb_ok, h]

/-- C5: when the scale field parses as a float, the scale value handed to
the convert callback is exactly that parsed value. -/
theorem tk_cb_ok_scale_passed_verbatim (cb : ConvArgs → Except PyExn Unit)
    (st : TkState) (v : PyFloat) (h : pyFloatParse st.scale_widget = some v) :
    (TexTextGuiTK.cb_ok cb st).callbackCalled
      = some (TexTextGuiTK.collect_args st v)
  ∧ (TexTextGuiTK.collect_args st v).scale = v := by
  refine ⟨?_, rfl⟩
  simp only [TexTextGuiTK.cb_ok, h]
  cases hc : cb (TexTextGuiTK.collect_args st v) <;> simp [hc]

/-- C9: once the scale field parses, `cb_ok` overwrites the stored text,
preamble path, scale and stroke flag with the widget values, passes those
same values to the convert callback, and the overwritten state is the
result state no matter how the callback ends — there is no rollback. -/
theorem tk_cb_ok_commits_fields_no_rollback (cb : ConvArgs → Except PyExn Unit)
    (st : TkState) (v : PyFloat) (h : pyFloatParse st.scale_widget = some v) :
    (TexTextGuiTK.cb_ok cb st).state = TexTextGuiTK.commit_fields st v
  ∧ (TexTextGuiTK.commit_fields st v).text = st.text_box_content
  ∧ (TexTextGuiTK.commit_fields st v).preamble_file = st.preamble_widget
  ∧ (TexTextGuiTK.commit_fields st v).global_scale_factor = v
  ∧ (TexTextGuiTK.commit_fields st v).current_convert_strokes_to_path
      = st.strokes_widget
  ∧ (TexTextGuiTK.cb_ok cb st).callbackCalled
      = some (TexTextGuiTK.collect_args st v) := by
  refine ⟨?_, rfl, rfl, rfl, rfl, ?_⟩ <;>
    simp only [TexTextGuiTK.cb_ok, h] <;>
    cases hc : cb (TexTextGuiTK.collect_args st v) <;> simp [hc]

/-- C3: a convert callback that raises leaves the main loop running in
both dialogs, and the error dialog's always-visible section displays the
string conversion of the raised exception verbatim. -/
theorem cb_ok_convert_error_keeps_dialog_open
    (cb : ConvArgs → Except PyExn Unit) (st : TkState) (v : PyFloat) (e : PyExn)
    (hv : pyFloatParse st.scale_widget = some v)
    (he : cb (TexTextGuiTK.collect_args st v) = Except.error e)
    (cbG : TexTextEleMetaData → Except PyExn Unit) (stG : GtkState) (eG : PyExn)
    (heG : cbG (TexTextGuiGTK.collect_meta (TexTextGuiGTK.collect_state stG))
      = Except.error eG) :
    (TexTextGuiTK.cb_ok cb st).loopQuit = false
  ∧ (TexTextGuiTK.cb_ok cb st).errorDialog
      = some (TexTextGuiTK.show_error_dialog "TexText Error"
          "Error occurred while converting text from Latex to SVG:" e)
  ∧ (TexTextGuiTK.show_error_dialog "TexText Error"
      "Error occurred while converting text from Latex to SVG:" e).head?
      = some ("Error occurred while converting text from Latex to SVG:", pyStr e)
  ∧ (TexTextGuiGTK.cb_ok cbG stG).mainQuit = false
  ∧ (TexTextGuiGTK.cb_ok cbG stG).errorDialog
      = some (TexTextGuiGTK.show_error_dialog "TexText Error"
          "Error occurred while converting text from Latex to SVG:" eG)
  ∧ (TexTextGuiGTK.show_error_dialog "TexText Error"
      "Error occurred while converting text from Latex to SVG:" eG).main_text
      = pyStr eG := by
  refine ⟨?_, ?_, rfl, ?_, ?_, rfl⟩ <;>
    simp [TexTextGuiTK.cb_ok, TexTextGuiGTK.cb_ok, hv, he, heG]

/-- C4: neither cancel handler ever invokes the convert callback; the TK
handler raises `SystemExit(1)`.  The GTK handler, however, does not exit
the event loop: it invokes `self.window_deleted_cb`, an attribute that no
active code defines (the surviving delete handler is named
`on_window_delete`), so Python raises `AttributeError` and the main loop
keeps running. -/
theorem cb_cancel_behavior (st : TkState) (stG : GtkState) :
    (TexTextGuiTK.cb_cancel st).callbackCalled = none
  ∧ (TexTextGuiTK.cb_cancel st).outcome = CancelOutcome.systemExit 1
  ∧ (TexTextGuiGTK.cb_cancel stG).callbackCalled = none
  ∧ TexTextGuiGTK.cb_cancel_target ∉ TexTextGuiGTK.defined_attributes
  ∧ (TexTextGuiGTK.cb_cancel stG).outcome
      = CancelOutcome.attributeError "window_deleted_cb"
  ∧ TexTextGuiGTK.on_window_delete.outcome = CancelOutcome.mainQuit := by
  have hmem : TexTextGuiGTK.cb_cancel_target ∉ TexTextGuiGTK.defined_attributes := by
    decide
  have hcc : TexTextGuiGTK.cb_cancel stG
      = { callbackCalled := none
        , outcome := CancelOutcome.attributeError TexTextGuiGTK.cb_cancel_target } := by
    unfold TexTextGuiGTK.cb_cancel
    rw [if_neg hmem]
  exact ⟨rfl, rfl, by rw [hcc], hmem, by rw [hcc]; rfl, rfl⟩

/-- C6: toggling the word-wrap control sets the live text widget's wrap
mode and the persisted `config["gui"]["word_wrap"]` value to the same
boolean, equal to the new toggle state — in the TK dialog
(`cb_word_wrap`, run after the checkbox variable flips) and in the GTK
dialog (`word_wrap_toggled_cb`). -/
theorem word_wrap_toggle_updates_widget_and_config
    (st : TkState) (m : List (String × CScalar))
    (h : Settings.lookupKey st.config "gui" = some (CVal.sect m))
    (active : Bool) (cfg2 : Settings) (m2 : List (String × CScalar))
    (h2 : Settings.lookupKey cfg2 "gui" = some (CVal.sect m2)) :
    (TexTextGuiTK.toggle_word_wrap st).word_wrap_tkval = !st.word_wrap_tkval
  ∧ ((TexTextGuiTK.toggle_word_wrap st).text_box_wrap = WrapMode.word
      ↔ (TexTextGuiTK.toggle_word_wrap st).word_wrap_tkval = true)
  ∧ Settings.getGui (TexTextGuiTK.toggle_word_wrap st).config "word_wrap"
      = some (CScalar.sB (TexTextGuiTK.toggle_word_wrap st).word_wrap_tkval)
  ∧ ((TexTextGuiGTK.word_wrap_toggled_cb active cfg2).1 = WrapMode.word
      ↔ active = true)
  ∧ Settings.getGui (TexTextGuiGTK.word_wrap_toggled_cb active cfg2).2 "word_wrap"
      = some (CScalar.sB active) := by
  refine ⟨rfl, ?_, ?_, ?_, ?_⟩
  · cases hb : st.word_wrap_tkval <;>
      simp [TexTextGuiTK.toggle_word_wrap, TexTextGuiTK.cb_word_wrap, hb]
  · exact getGui_setGui st.config m "word_wrap"
      (CScalar.sB (!st.word_wrap_tkval)) h
  · cases active <;> simp [TexTextGuiGTK.word_wrap_toggled_cb]
  · exact getGui_setGui cfg2 m2 "word_wrap" (CScalar.sB active) h2

/-! ## Concrete instances for the witnesses -/

/-- A configuration store whose `"gui"` sub-section exists and is empty. -/
def sampleSettings : Settings := ⟨[("gui", CVal.sect [])]⟩

/-- A plain raised exception (not a `TexTextCommandFailed`). -/
def sampleExn : PyExn :=
  { msg := "conversion failed", isCmdFailed := false, stdout := none, stderr := none }

/-- A concrete open TK dialog state.  The scale field holds `"inf"`, which
Python's `float` accepts. -/
def sampleTkState : TkState :=
  { text := "old text"
  , preamble_file := "old.tex"
  , global_scale_factor := PyFloat.inf false
  , current_convert_strokes_to_path := false
  , config := sampleSettings
  , scale_widget := "inf"
  , preamble_widget := "preamble.tex"
  , text_box_content := "x^2"
  , strokes_widget := true
  , alignment_widget := "middle center"
  , texcmd_widget := "lualatex"
  , word_wrap_tkval := false
  , text_box_wrap := WrapMode.nowrap }

/-- A concrete open GTK dialog state. -/
def sampleGtkState : GtkState :=
  { textext_version := "1.8.2"
  , text := "old text"
  , preamble_file := "old.tex"
  , global_scale_factor := 2
  , current_convert_strokes_to_path := false
  , config := sampleSettings
  , source_buffer := "x^2"
  , preamble_widget := PreambleWidget.entry "preamble.tex"
  , scale_adj_value := 2
  , stroke2path_active := true
  , texcmd_active := 1
  , alignment_active := 4 }

/-- C2 witness: `tk_cb_ok_invalid_scale` at the scale field `"abc"`. -/
theorem tk_cb_ok_invalid_scale_witness :
    pyFloatParse ({ sampleTkState with scale_widget := "abc" } : TkState).scale_widget
      = none
  ∧ ((TexTextGuiTK.cb_ok (fun _ => Except.ok ())
        { sampleTkState with scale_widget := "abc" }).callbackCalled = none
    ∧ (TexTextGuiTK.cb_ok (fun _ => Except.ok ())
        { sampleTkState with scale_widget := "abc" }).scaleError
        = some ("Scale factor error",
            "Please enter a valid floating point number for the scale factor!")
    ∧ (TexTextGuiTK.cb_ok (fun _ => Except.ok ())
        { sampleTkState with scale_widget := "abc" }).loopQuit = false
    ∧ (TexTextGuiTK.cb_ok (fun _ => Except.ok ())
        { sampleTkState with scale_widget := "abc" }).state
        = { sampleTkState with scale_widget := "abc" }) :=
  ⟨by decide,
   tk_cb_ok_invalid_scale (fun _ => Except.ok ())
     { sampleTkState with scale_widget := "abc" } (by decide)⟩

/-- C5 witness: `tk_cb_ok_scale_passed_verbatim` at the scale field
`"inf"`. -/
theorem tk_cb_ok_scale_passed_verbatim_witness :
    pyFloatParse sampleTkState.scale_widget = some (PyFloat.inf false)
  ∧ ((TexTextGuiTK.cb_ok (fun _ => Except.ok ()) sampleTkState).callbackCalled
        = some (TexTextGuiTK.collect_args sampleTkState (PyFloat.inf false))
    ∧ (TexTextGuiTK.collect_args sampleTkState (PyFloat.inf false)).scale
        = PyFloat.inf false) :=
  ⟨by decide,
   tk_cb_ok_scale_passed_verbatim (fun _ => Except.ok ()) sampleTkState
     (PyFloat.inf false) (by decide)⟩

/-- C9 witness: `tk_cb_ok_commits_fields_no_rollback` at a raising
callback, so the commit visibly survives the error path. -/
theorem tk_cb_ok_commits_fields_no_rollback_witness :
    pyFloatParse sampleTkState.scale_widget = some (PyFloat.inf false)
  ∧ ((TexTextGuiTK.cb_ok (fun _ => Except.error sampleExn) sampleTkState).state
        = TexTextGuiTK.commit_fields sampleTkState (PyFloat.inf false)
    ∧ (TexTextGuiTK.commit_fields sampleTkState (PyFloat.inf false)).text
        = sampleTkState.text_box_content
    ∧ (TexTextGuiTK.commit_fields sampleTkState (PyFloat.inf false)).preamble_file
        = sampleTkState.preamble_widget
    ∧ (TexTextGuiTK.commit_fields sampleTkState
        (PyFloat.inf false)).global_scale_factor = PyFloat.inf false
    ∧ (TexTextGuiTK.commit_fields sampleTkState
        (PyFloat.inf false)).current_convert_strokes_to_path
        = sampleTkState.strokes_widget
    ∧ (TexTextGuiTK.cb_ok (fun _ => Except.error sampleExn)
        sampleTkState).callbackCalled
        = some (TexTextGuiTK.collect_args sampleTkState (PyFloat.inf false))) :=
  ⟨by decide,
   tk_cb_ok_commits_fields_no_rollback (fun _ => Except.error sampleExn)
     sampleTkState (PyFloat.inf false) (by decide)⟩

/-- C3 witness: `cb_ok_convert_error_keeps_dialog_open` with callbacks
that raise `sampleExn` in both dialogs. -/
theorem cb_ok_convert_error_keeps_dialog_open_witness :
    pyFloatParse sampleTkState.scale_widget = some (PyFloat.inf false)
  ∧ (fun _ => Except.error sampleExn : ConvArgs → Except PyExn Unit)
      (TexTextGuiTK.collect_args sampleTkState (PyFloat.inf false))
      = Except.error sampleExn
  ∧ (fun _ => Except.error sampleExn : TexTextEleMetaData → Except PyExn Unit)
      (TexTextGuiGTK.collect_meta (TexTextGuiGTK.collect_state sampleGtkState))
      = Except.error sampleExn
  ∧ ((TexTextGuiTK.cb_ok (fun _ => Except.error sampleExn)
        sampleTkState).loopQuit = false
    ∧ (TexTextGuiTK.cb_ok (fun _ => Except.error sampleExn)
        sampleTkState).errorDialog
        = some (TexTextGuiTK.show_error_dialog "TexText Error"
            "Error occurred while converting text from Latex to SVG:" sampleExn)
    ∧ (TexTextGuiTK.show_error_dialog "TexText Error"
        "Error occurred while converting text from Latex to SVG:" sampleExn).head?
        = some ("Error occurred while converting text from Latex to SVG:",
            pyStr sampleExn)
    ∧ (TexTextGuiGTK.cb_ok (fun _ => Except.error sampleExn)
        sampleGtkState).mainQuit = false
    ∧ (TexTextGuiGTK.cb_ok (fun _ => Except.error sampleExn)
        sampleGtkState).errorDialog
        = some (TexTextGuiGTK.show_error_dialog "TexText Error"
            "Error occurred while converting text from Latex to SVG:" sampleExn)
    ∧ (TexTextGuiGTK.show_error_dialog "TexText Error"
        "Error occurred while converting text from Latex to SVG:"
        sampleExn).main_text = pyStr sampleExn) :=
  ⟨by decide, rfl, rfl,
   cb_ok_convert_error_keeps_dialog_open (fun _ => Except.error sampleExn)
     sampleTkState (PyFloat.inf false) sampleExn (by decide) rfl
     (fun _ => Except.error sampleExn) sampleGtkState sampleExn rfl⟩

/-- C6 witness: `word_wrap_toggle_updates_widget_and_config` on a state
whose store has an (empty) `"gui"` sub-section, toggling from off to
on. -/
theorem word_wrap_toggle_updates_widget_and_config_witness :
    Settings.lookupKey sampleTkState.config "gui" = some (CVal.sect [])
  ∧ Settings.lookupKey sampleSettings "gui" = some (CVal.sect [])
  ∧ ((TexTextGuiTK.toggle_word_wrap sampleTkState).word_wrap_tkval
        = !sampleTkState.word_wrap_tkval
    ∧ ((TexTextGuiTK.toggle_word_wrap sampleTkState).text_box_wrap = WrapMode.word
        ↔ (TexTextGuiTK.toggle_word_wrap sampleTkState).word_wrap_tkval = true)
    ∧ Settings.getGui (TexTextGuiTK.toggle_word_wrap sampleTkState).config
        "word_wrap"
        = some (CScalar.sB (TexTextGuiTK.toggle_word_wrap
            sampleTkState).word_wrap_tkval)
    ∧ ((TexTextGuiGTK.word_wrap_toggled_cb true sampleSettings).1 = WrapMode.word
        ↔ true = true)
    ∧ Settings.getGui (TexTextGuiGTK.word_wrap_toggled_cb true sampleSettings).2
        "word_wrap" = some (CScalar.sB true)) :=
  ⟨by decide, by decide,
   word_wrap_toggle_updates_widget_and_config sampleTkState [] (by decide)
     true sampleSettings [] (by decide)⟩
